import Mathlib

/-!
Verification of `fdbserver/workloads/Rollback.actor.cpp` (RollbackWorkload).

The workload is embedded shallowly: each fault-injection / trace / delay call
the C++ actor makes is recorded as a `Command` in a list, in program order.
Ambient randomness (`deterministicRandom()->randomChoice`, `randomInt`,
`random01`) is made explicit: chosen indices and uniform samples are
parameters of the embedded functions.  Durations are rationals.
-/

namespace Rollback

/-- A network address; only the `ip` component is inspected by the workload
(`.address().ip`), `port` keeps addresses distinguishable on one host. -/
structure NetworkAddress where
  ip : Nat
  port : Nat
  deriving DecidableEq, Repr, Inhabited

/-- The part of `ServerDBInfo` the workload reads: `logSystemConfig.allPresentLogs()`
(each tLog represented by its `.address()`) and `client.commitProxies`
(each proxy represented by its `.address()`). -/
structure ServerDBInfo where
  tlogs : List NetworkAddress
  commitProxies : List NetworkAddress
  deriving DecidableEq, Repr

/-- One externally visible action of the actor, in program order. -/
inductive Command where
  /-- Models `TraceEvent(name).detail("Reason", reason)` (or empty reason). -/
  | traceEvent (name reason : String)
  /-- Models `g_simulator->clogPair(ipA, ipB, seconds)`. -/
  | clogPair (ipA ipB : Nat) (seconds : Rat)
  /-- Models `g_simulator->clogInterface(ip, seconds, ClogAll)`. -/
  | clogInterface (ip : Nat) (seconds : Rat)
  /-- Models `g_simulator->killProcess(getProcessByAddress(addr), KillInstantly)`. -/
  | killProcess (addr : NetworkAddress)
  /-- Models `wait(delay(seconds))`. -/
  | delayMark (seconds : Rat)
  deriving DecidableEq, Repr

/-- Holds exactly for the commands that command the fault-injection
substrate (clogPair / clogInterface / killProcess). -/
def Command.isFaultInjection : Command → Bool
  | .clogPair _ _ _ => true
  | .clogInterface _ _ => true
  | .killProcess _ => true
  | _ => false

/-- Holds exactly for `killProcess` commands. -/
def Command.isKillProcess : Command → Bool
  | .killProcess _ => true
  | _ => false

/-- Holds exactly for `clogInterface` commands. -/
def Command.isClogInterface : Command → Bool
  | .clogInterface _ _ => true
  | _ => false

/-- The configuration state of `struct RollbackWorkload`. -/
structure RollbackWorkload where
  enableFailures : Bool
  multiple : Bool
  enabled : Bool
  meanDelay : Rat
  clogDuration : Rat
  testDuration : Rat
  deriving DecidableEq, Repr

/-- Recognized workload options; `none` models an absent option, so that
`getOption(options, name, default)` is `Option.getD`. -/
structure WorkloadOptions where
  meanDelay : Option Rat
  clogDuration : Option Rat
  testDuration : Option Rat
  enableFailures : Option Bool
  multiple : Option Bool

/-- An options record with every option absent. -/
def emptyOptions : WorkloadOptions := ⟨none, none, none, none, none⟩

/-- The `RollbackWorkload(WorkloadContext const&)` constructor:
`enabled = !clientId` and the five `getOption` reads with their defaults. -/
def RollbackWorkload.init (clientId : Nat) (options : WorkloadOptions) : RollbackWorkload :=
  { enabled := clientId == 0
    meanDelay := options.meanDelay.getD 20
    clogDuration := options.clogDuration.getD 3
    testDuration := options.testDuration.getD 10
    enableFailures := options.enableFailures.getD false
    multiple := options.multiple.getD true }

/-- Result of `start(Database const&)`: either launch the worker wrapped in a
`timeout(..., testDuration, Void())`, or return `Void()` immediately. -/
inductive StartAction where
  | launchScheduler (timeoutSeconds : Rat)
  | noop
  deriving DecidableEq, Repr

/-- The `start()` member: launches the (timeout-wrapped) worker only when
`g_simulator == g_network && enabled`; otherwise returns `Void()`. -/
def RollbackWorkload.start (self : RollbackWorkload) (inSimulation : Bool) : StartAction :=
  if inSimulation && self.enabled then .launchScheduler self.testDuration else .noop

/-- Outcome of the selection phase of `simulateFailure` (lines 63-83):
either an early `return Void()` with the traced reason, or the chosen
proxy, unclogged tLog and the list of tLogs to clog. -/
inductive SampleResult where
  | abort (reason : String)
  | plan (proxy uncloggedTLog : NetworkAddress) (otherTLogs : List NetworkAddress)
  deriving DecidableEq, Repr

/-- The shared-IP loop: `for t in [0, tlogs.size()) : if t != utIndex and
tlogs[t].address().ip == proxy.address().ip then return`. -/
def sharedIpCheck (tlogs : List NetworkAddress) (utIndex : Nat) (proxyIp : Nat) : Bool :=
  (List.range tlogs.length).any fun t => t != utIndex && (tlogs.getD t default).ip == proxyIp

/-- The tLogs the clogging loop visits: indices `t != utIndex`, in order. -/
def otherTLogs (tlogs : List NetworkAddress) (utIndex : Nat) : List NetworkAddress :=
  ((List.range tlogs.length).filter fun t => t != utIndex).map fun t => tlogs.getD t default

/-- Selection phase of `simulateFailure`: emptiness check, random proxy
(index `pIndex` into `commitProxies`), random unclogged tLog (index
`utIndex` into `tlogs`), and the shared-IP validity check. -/
def sample (system : ServerDBInfo) (pIndex utIndex : Nat) : SampleResult :=
  if system.tlogs.isEmpty || system.commitProxies.isEmpty then
    .abort "No tlogs in System Map"
  else
    let proxy := system.commitProxies.getD pIndex default
    let uncloggedTLog := system.tlogs.getD utIndex default
    if sharedIpCheck system.tlogs utIndex proxy.ip then
      .abort "proxy-clogged tLog shared IPs"
    else
      .plan proxy uncloggedTLog (otherTLogs system.tlogs utIndex)

/-- The escalation step (lines 97-103): branch on `enableFailures`. -/
def escalate (self : RollbackWorkload) (proxy uncloggedTLog : NetworkAddress) : List Command :=
  if self.enableFailures then
    [.killProcess proxy, .clogInterface uncloggedTLog.ip self.clogDuration]
  else
    [.clogInterface proxy.ip self.clogDuration, .clogInterface uncloggedTLog.ip self.clogDuration]

/-- The full command trace of one `simulateFailure` call.  `system` is the
`dbInfo->get()` read at entry; `system2` models the re-read
`system = self->dbInfo->get()` after the `clogDuration / 3` delay — the
source overwrites the state variable with it but never reads it again,
so it does not appear on any path below. -/
def simulateFailure (self : RollbackWorkload) (system system2 : ServerDBInfo)
    (pIndex utIndex : Nat) : List Command :=
  match sample system pIndex utIndex with
  | .abort reason => [.traceEvent "UnableToTriggerRollback" reason]
  | .plan proxy uncloggedTLog others =>
      .traceEvent "AttemptingToTriggerRollback" "" ::
        (others.map fun a => Command.clogPair proxy.ip a.ip self.clogDuration) ++
          Command.delayMark (self.clogDuration / 3) ::
            escalate self proxy uncloggedTLog

/-- One scheduling-level event of `rollbackFailureWorker`. -/
inductive SchedEvent where
  /-- Models `wait(poisson(&lastTime, delay))`: suspend until the updated anchor. -/
  | waitUntil (t : Rat)
  /-- Models `wait(::delay(d))`. -/
  | waitDelay (d : Rat)
  /-- Models `wait(self->simulateFailure(cx, self))`, the k-th occurrence. -/
  | runOccurrence (k : Nat)
  /-- the actor falling off the loop and returning `Void()`. -/
  | finish
  deriving DecidableEq, Repr

/-- Holds exactly for `runOccurrence` events. -/
def SchedEvent.isRunOccurrence : SchedEvent → Bool
  | .runOccurrence _ => true
  | _ => false

/-- The single-shot delay `random01() * std::max(0.0, testDuration - clogDuration * 13.0)`;
`r` is the `random01()` sample. -/
def singleShotDelay (self : RollbackWorkload) (r : Rat) : Rat :=
  r * max 0 (self.testDuration - self.clogDuration * 13)

/-- Modelled from the spec: `poisson(&lastTime, delay)` (a flow timer
primitive, not part of this source file) advances the running anchor
`lastTime` by an exponentially distributed interval with the given mean and
suspends until the new anchor.  `expSamples k` is the (non-negative)
unit-mean exponential sample drawn before occurrence `k`, so the anchor
advances by `mean * expSamples k`.

`workerLoop mean expSamples lastTime fuel k` is the event trace of the next
`fuel` iterations of the `loop { wait(poisson(&lastTime, delay)); wait(simulateFailure) }`
body, starting at occurrence number `k`.  The loop itself has no exit:
`fuel` only truncates the (infinite) trace for observation. -/
def workerLoop (mean : Rat) (expSamples : Nat → Rat) (lastTime : Rat) :
    Nat → Nat → List SchedEvent
  | 0, _ => []
  | fuel + 1, k =>
      let lastTime2 := lastTime + mean * expSamples k
      .waitUntil lastTime2 :: .runOccurrence k ::
        workerLoop mean expSamples lastTime2 fuel (k + 1)

/-- The anchor value after the draws for occurrences `0..k`:
`t0 + Σ_{i ≤ k} mean * expSamples i`. -/
def anchorTime (mean : Rat) (expSamples : Nat → Rat) (t0 : Rat) (k : Nat) : Rat :=
  t0 + ∑ i in Finset.range (k + 1), mean * expSamples i

/-- The event trace of `rollbackFailureWorker`: in repeating mode the
endless poisson loop (truncated at `fuel` iterations), in single-shot mode
one random delay, one occurrence, then return.  `r` is the `random01()`
sample of the single-shot branch; `t0` is `now()` at entry. -/
def rollbackFailureWorker (self : RollbackWorkload) (r : Rat)
    (expSamples : Nat → Rat) (t0 : Rat) (fuel : Nat) : List SchedEvent :=
  if self.multiple then
    workerLoop self.meanDelay expSamples t0 fuel 0
  else
    [.waitDelay (singleShotDelay self r), .runOccurrence 0, .finish]

/-! ### Helper lemmas -/

theorem map_getD_range {α : Type} (l : List α) (d : α) :
    (List.range l.length).map (fun i => l.getD i d) = l := by
  induction l with
  | nil => rfl
  | cons x xs ih =>
      simp only [List.length_cons, List.range_succ_eq_map, List.map_cons, List.map_map]
      have h : ((fun i => (x :: xs).getD i d) ∘ Nat.succ) = fun i => xs.getD i d := by
        funext i
        simp [List.getD_cons_succ]
      rw [List.getD_cons_zero, h, ih]

theorem filter_range_map_getD {α : Type} (l : List α) (d : α) (u : Nat)
    (hu : u < l.length) :
    ((List.range l.length).filter fun t => t != u).map (fun t => l.getD t d) =
      l.eraseIdx u := by
  induction l generalizing u with
  | nil => simp at hu
  | cons x xs ih =>
      cases u with
      | zero =>
          simp only [List.length_cons, List.range_succ_eq_map, List.filter_cons,
            bne_self_eq_false, Bool.false_eq_true, if_false, List.filter_map,
            List.eraseIdx_cons_zero]
          have h1 : (xs.length.succ :: List.range xs.length).length = xs.length + 1 := by
            simp
          have hfil : (List.range xs.length).filter ((fun t => t != 0) ∘ Nat.succ) =
              List.range xs.length := by
            apply List.filter_eq_self.mpr
            intro a _
            simp
          rw [hfil, List.map_map]
          have h2 : ((fun t => (x :: xs).getD t d) ∘ Nat.succ) = fun t => xs.getD t d := by
            funext i
            simp [List.getD_cons_succ]
          rw [h2, map_getD_range]
      | succ v =>
          have hv : v < xs.length := by
            simpa using hu
          simp only [List.length_cons, List.range_succ_eq_map, List.filter_cons,
            List.filter_map, List.eraseIdx_cons_succ]
          have h0 : ((0 : Nat) != v + 1) = true := by
            simp
          rw [h0]
          simp only [if_true, List.map_cons, List.getD_cons_zero, List.map_map]
          have hfil : (List.range xs.length).filter ((fun t => t != v + 1) ∘ Nat.succ) =
              (List.range xs.length).filter fun t => t != v := by
            apply List.filter_congr
            intro t _
            simp [Function.comp]
          rw [hfil]
          have h2 : ((fun t => (x :: xs).getD t d) ∘ Nat.succ) = fun t => xs.getD t d := by
            funext i
            simp [List.getD_cons_succ]
          rw [← List.map_map (fun t => (x :: xs).getD t d) Nat.succ, List.map_map, h2,
            ih v hv]

theorem otherTLogs_eq_eraseIdx (l : List NetworkAddress) (u : Nat) (hu : u < l.length) :
    otherTLogs l u = l.eraseIdx u :=
  filter_range_map_getD l default u hu

theorem getD_not_mem_eraseIdx {α : Type} (l : List α) (d : α) (u : Nat)
    (hu : u < l.length) (hnd : l.Nodup) : l.getD u d ∉ l.eraseIdx u := by
  intro hm
  rw [List.mem_iff_getElem] at hm
  obtain ⟨j, hj, hjeq⟩ := hm
  rw [List.getElem_eraseIdx] at hjeq
  have hjl : j < l.length := by
    rw [List.length_eraseIdx, if_pos hu] at hj
    omega
  rw [List.getD_eq_getElem l d hu] at hjeq
  by_cases hc : j < u
  · rw [dif_pos hc] at hjeq
    exact absurd (hnd.getElem_inj_iff.mp hjeq) (by omega)
  · have hj1 : j + 1 < l.length := by
      rw [List.length_eraseIdx, if_pos hu] at hj
      omega
    rw [dif_neg hc] at hjeq
    exact absurd (hnd.getElem_inj_iff.mp hjeq) (by omega)

theorem workerLoop_eq_flatMap (mean : Rat) (es : Nat → Rat) (n : Nat) :
    ∀ (t0 : Rat) (k : Nat),
      workerLoop mean es t0 n k =
        (List.range n).flatMap fun j =>
          [SchedEvent.waitUntil (t0 + ∑ i in Finset.range (j + 1), mean * es (k + i)),
            SchedEvent.runOccurrence (k + j)] := by
  induction n with
  | zero =>
      intro t0 k
      rfl
  | succ m ih =>
      intro t0 k
      rw [List.range_succ_eq_map, List.flatMap_cons, List.flatMap_map]
      show SchedEvent.waitUntil (t0 + mean * es k) :: SchedEvent.runOccurrence k ::
          workerLoop mean es (t0 + mean * es k) m (k + 1) = _
      rw [ih (t0 + mean * es k) (k + 1)]
      have hsum : ∀ j : Nat,
          t0 + mean * es k + ∑ i in Finset.range (j + 1), mean * es (k + 1 + i) =
            t0 + ∑ i in Finset.range (j + 1 + 1), mean * es (k + i) := by
        intro j
        simp only [Finset.sum_range_succ' (fun i => mean * es (k + i)) (j + 1), Nat.add_zero]
        have hcongr : (∑ i in Finset.range (j + 1), mean * es (k + (i + 1))) =
            ∑ i in Finset.range (j + 1), mean * es (k + 1 + i) :=
          Finset.sum_congr rfl fun i _ => by
            rw [show k + (i + 1) = k + 1 + i from by omega]
        rw [hcongr]
        ring
      have hfun : (fun j =>
            [SchedEvent.waitUntil
                (t0 + mean * es k + ∑ i in Finset.range (j + 1), mean * es (k + 1 + i)),
              SchedEvent.runOccurrence (k + 1 + j)]) =
          ((fun j =>
            [SchedEvent.waitUntil (t0 + ∑ i in Finset.range (j + 1), mean * es (k + i)),
              SchedEvent.runOccurrence (k + j)]) ∘ Nat.succ) := by
        funext j
        have h1 := hsum j
        simp only [Function.comp, Nat.succ_eq_add_one]
        rw [h1, show k + 1 + j = k + (j + 1) from by omega]
      rw [hfun]
      simp only [Function.comp, Finset.sum_range_one, Nat.succ_eq_add_one, Nat.add_zero,
        List.cons.injEq, SchedEvent.waitUntil.injEq, true_and, and_true, eq_self_iff_true]
      congr 1
      all_goals simp [Finset.sum_range_one]

/-- The `workerLoop` trace truncated at any fuel contains exactly `fuel` occurrence runs. -/
theorem workerLoop_run_count (mean : Rat) (es : Nat → Rat) :
    ∀ (n : Nat) (t0 : Rat) (k : Nat),
      ((workerLoop mean es t0 n k).filter SchedEvent.isRunOccurrence).length = n := by
  intro n
  induction n with
  | zero =>
      intro t0 k
      rfl
  | succ m ih =>
      intro t0 k
      show (List.filter _ (_ :: _ :: workerLoop mean es (t0 + mean * es k) m (k + 1))).length = m + 1
      simp only [List.filter_cons]
      show (List.filter _ (workerLoop mean es (t0 + mean * es k) m (k + 1))).length + 1 = m + 1
      rw [ih]

/-! ### Fixtures for the witnesses -/

/-- tLog with IP 1. -/
def addrR1 : NetworkAddress := ⟨1, 4000⟩

/-- tLog with IP 2. -/
def addrR2 : NetworkAddress := ⟨2, 4000⟩

/-- tLog with IP 3. -/
def addrR3 : NetworkAddress := ⟨3, 4000⟩

/-- Commit proxy with IP 10. -/
def addrP1 : NetworkAddress := ⟨10, 4500⟩

/-- tLog sharing IP 10 with the proxy. -/
def addrRP : NetworkAddress := ⟨10, 4001⟩

/-- Snapshot with three tLogs on distinct hosts and one proxy. -/
def sysGood : ServerDBInfo := ⟨[addrR1, addrR2, addrR3], [addrP1]⟩

/-- Snapshot where tLog index 1 shares the proxy's IP. -/
def sysShared : ServerDBInfo := ⟨[addrR1, addrRP], [addrP1]⟩

/-- Snapshot with no tLogs. -/
def sysNoTLogs : ServerDBInfo := ⟨[], [addrP1]⟩

/-- A workload configuration built from defaults. -/
def cfgDefault : RollbackWorkload := RollbackWorkload.init 0 emptyOptions

/-- Snapshot where only the survivor (tLog index 0) shares the proxy's IP. -/
def sysSurvivorShared : ServerDBInfo := ⟨[addrRP, addrR2], [addrP1]⟩

/-- Aggressive configuration (`enableFailures = true`). -/
def cfgAggressive : RollbackWorkload := { cfgDefault with enableFailures := true }

/-- Single-shot configuration (`multiple = false`). -/
def cfgSingle : RollbackWorkload := { cfgDefault with multiple := false }

/-- With in-range random indices and no non-survivor tLog sharing the chosen
proxy's IP, the selection phase yields the plan: chosen proxy, chosen
unclogged tLog, and the other tLogs in index order. -/
theorem sample_eq_plan (system : ServerDBInfo) (pIndex utIndex : Nat)
    (hp : pIndex < system.commitProxies.length)
    (hu : utIndex < system.tlogs.length)
    (hnc : ∀ t, t < system.tlogs.length → t ≠ utIndex →
      (system.tlogs.getD t default).ip ≠ (system.commitProxies.getD pIndex default).ip) :
    sample system pIndex utIndex =
      .plan (system.commitProxies.getD pIndex default)
        (system.tlogs.getD utIndex default) (system.tlogs.eraseIdx utIndex) := by
  have h1 : system.tlogs ≠ [] := by
    intro h
    rw [h] at hu
    simp at hu
  have h2 : system.commitProxies ≠ [] := by
    intro h
    rw [h] at hp
    simp at hp
  have hcond : (system.tlogs.isEmpty || system.commitProxies.isEmpty) = false := by
    simp [h1, h2]
  have hchk : sharedIpCheck system.tlogs utIndex
      (system.commitProxies.getD pIndex default).ip = false := by
    unfold sharedIpCheck
    rw [List.any_eq_false]
    intro t ht
    rw [List.mem_range] at ht
    by_cases hteq : t = utIndex
    · simp [hteq]
    · simp only [Bool.and_eq_true, bne_iff_ne, ne_eq, beq_iff_eq, not_and]
      intro _
      exact hnc t ht hteq
  simp only [sample, hcond, Bool.false_eq_true, if_false, hchk]
  rw [otherTLogs_eq_eraseIdx system.tlogs utIndex hu]

/-! ### Claims -/

/-- C1: for every snapshot with at least one commit proxy and at least two
tLogs in which no non-survivor tLog shares the chosen proxy's IP, the
selection phase returns a valid plan and never aborts: the survivor
`tlogs[utIndex]` is a member of the tLog list, `otherTLogs` is exactly the
tLog list with the survivor's entry removed, and (for duplicate-free tLog
lists) the survivor is excluded from `otherTLogs`. -/
theorem C1_sample_valid_plan (system : ServerDBInfo) (pIndex utIndex : Nat)
    (hp : pIndex < system.commitProxies.length)
    (ht : 2 ≤ system.tlogs.length)
    (hu : utIndex < system.tlogs.length)
    (hnc : ∀ t, t < system.tlogs.length → t ≠ utIndex →
      (system.tlogs.getD t default).ip ≠ (system.commitProxies.getD pIndex default).ip) :
    sample system pIndex utIndex =
      .plan (system.commitProxies.getD pIndex default)
        (system.tlogs.getD utIndex default) (system.tlogs.eraseIdx utIndex) ∧
    system.tlogs.getD utIndex default ∈ system.tlogs ∧
    (system.tlogs.Nodup →
      system.tlogs.getD utIndex default ∉ system.tlogs.eraseIdx utIndex) := by
  have hpos : 0 < system.tlogs.length := by omega
  refine ⟨sample_eq_plan system pIndex utIndex hp hu hnc, ?_, ?_⟩
  · rw [List.getD_eq_getElem _ _ hu]
    exact List.getElem_mem hu
  · intro hnd
    exact getD_not_mem_eraseIdx system.tlogs default utIndex hu hnd

/-- Witness for C1 on the concrete three-tLog snapshot, survivor index 1. -/
theorem C1_sample_valid_plan_witness :
    sample sysGood 0 1 = .plan addrP1 addrR2 [addrR1, addrR3] ∧
    addrR2 ∈ sysGood.tlogs ∧
    (sysGood.tlogs.Nodup → addrR2 ∉ sysGood.tlogs.eraseIdx 1) :=
  C1_sample_valid_plan sysGood 0 1 (by decide) (by decide) (by decide) (by decide)

/-- C2: whenever some tLog other than the chosen survivor shares the chosen
proxy's IP, `simulateFailure` only emits the informational
`proxy-clogged tLog shared IPs` trace event and issues no fault-injection
command; a collision between the chosen survivor and the proxy does not by
itself make the selection abort. -/
theorem C2_shared_host (self : RollbackWorkload) (system system2 : ServerDBInfo)
    (pIndex utIndex : Nat)
    (hp : pIndex < system.commitProxies.length)
    (hu : utIndex < system.tlogs.length) :
    ((∃ t, t < system.tlogs.length ∧ t ≠ utIndex ∧
        (system.tlogs.getD t default).ip = (system.commitProxies.getD pIndex default).ip) →
      simulateFailure self system system2 pIndex utIndex =
        [.traceEvent "UnableToTriggerRollback" "proxy-clogged tLog shared IPs"] ∧
      ∀ c ∈ simulateFailure self system system2 pIndex utIndex,
        c.isFaultInjection = false) ∧
    ((∀ t, t < system.tlogs.length → t ≠ utIndex →
        (system.tlogs.getD t default).ip ≠ (system.commitProxies.getD pIndex default).ip) →
      ∀ reason, sample system pIndex utIndex ≠ .abort reason) := by
  constructor
  · rintro ⟨t, ht, htne, hip⟩
    have h1 : system.tlogs ≠ [] := by
      intro h
      rw [h] at hu
      simp at hu
    have h2 : system.commitProxies ≠ [] := by
      intro h
      rw [h] at hp
      simp at hp
    have hcond : (system.tlogs.isEmpty || system.commitProxies.isEmpty) = false := by
      simp [h1, h2]
    have hchk : sharedIpCheck system.tlogs utIndex
        (system.commitProxies.getD pIndex default).ip = true := by
      unfold sharedIpCheck
      rw [List.any_eq_true]
      refine ⟨t, List.mem_range.mpr ht, ?_⟩
      simp only [Bool.and_eq_true, bne_iff_ne, ne_eq, beq_iff_eq]
      exact ⟨htne, hip⟩
    have hsample : sample system pIndex utIndex =
        .abort "proxy-clogged tLog shared IPs" := by
      simp only [sample, hcond, Bool.false_eq_true, if_false, hchk, if_true]
    constructor
    · simp [simulateFailure, hsample]
    · intro c hc
      simp only [simulateFailure, hsample, List.mem_singleton] at hc
      simp [hc, Command.isFaultInjection]
  · intro hnc reason
    rw [sample_eq_plan system pIndex utIndex hp hu hnc]
    simp

/-- Witness for C2: a non-survivor collision aborts (snapshot
`sysShared`, survivor 0, tLog 1 on the proxy's host), while a
survivor-only collision (snapshot `sysSurvivorShared`) does not abort. -/
theorem C2_shared_host_witness :
    ((1 : Nat) < sysShared.tlogs.length ∧ (1 : Nat) ≠ 0 ∧
      (sysShared.tlogs.getD 1 default).ip = (sysShared.commitProxies.getD 0 default).ip) ∧
    simulateFailure cfgDefault sysShared sysShared 0 0 =
      [.traceEvent "UnableToTriggerRollback" "proxy-clogged tLog shared IPs"] ∧
    (sysSurvivorShared.tlogs.getD 0 default).ip =
      (sysSurvivorShared.commitProxies.getD 0 default).ip ∧
    ∀ reason, sample sysSurvivorShared 0 0 ≠ .abort reason := by
  have h := C2_shared_host cfgDefault sysShared sysShared 0 0 (by decide) (by decide)
  have hs := C2_shared_host cfgDefault sysSurvivorShared sysSurvivorShared 0 0
    (by decide) (by decide)
  exact ⟨by decide, (h.1 ⟨1, by decide, by decide, by decide⟩).1, by decide,
    hs.2 (by decide)⟩

/-- C3: the escalation effect is determined exactly by the flag: with
`enableFailures = true` the occurrence's trace contains exactly one process
kill (the proxy) and exactly one interface clog (the survivor's IP, for
`clogDuration`); with `false`, no kill and exactly two interface clogs
(proxy's IP and survivor's IP, each for `clogDuration`). -/
theorem C3_escalation_flag (self : RollbackWorkload) (system system2 : ServerDBInfo)
    (pIndex utIndex : Nat)
    (hp : pIndex < system.commitProxies.length)
    (hu : utIndex < system.tlogs.length)
    (hnc : ∀ t, t < system.tlogs.length → t ≠ utIndex →
      (system.tlogs.getD t default).ip ≠ (system.commitProxies.getD pIndex default).ip) :
    (simulateFailure self system system2 pIndex utIndex).filter Command.isKillProcess =
      (if self.enableFailures then
        [.killProcess (system.commitProxies.getD pIndex default)]
      else []) ∧
    (simulateFailure self system system2 pIndex utIndex).filter Command.isClogInterface =
      (if self.enableFailures then
        [.clogInterface (system.tlogs.getD utIndex default).ip self.clogDuration]
      else
        [.clogInterface (system.commitProxies.getD pIndex default).ip self.clogDuration,
          .clogInterface (system.tlogs.getD utIndex default).ip self.clogDuration]) := by
  have hsample := sample_eq_plan system pIndex utIndex hp hu hnc
  cases hef : self.enableFailures <;>
    constructor <;>
      simp [simulateFailure, hsample, escalate, hef, List.filter_append,
        List.filter_map, Function.comp, Command.isKillProcess, Command.isClogInterface]

/-- Witness for C3: both escalation branches on the three-tLog snapshot. -/
theorem C3_escalation_flag_witness :
    (simulateFailure cfgAggressive sysGood sysGood 0 1).filter Command.isKillProcess =
      [.killProcess addrP1] ∧
    (simulateFailure cfgAggressive sysGood sysGood 0 1).filter Command.isClogInterface =
      [.clogInterface addrR2.ip cfgAggressive.clogDuration] ∧
    (simulateFailure cfgDefault sysGood sysGood 0 1).filter Command.isKillProcess = [] ∧
    (simulateFailure cfgDefault sysGood sysGood 0 1).filter Command.isClogInterface =
      [.clogInterface addrP1.ip cfgDefault.clogDuration,
        .clogInterface addrR2.ip cfgDefault.clogDuration] := by
  have hA := C3_escalation_flag cfgAggressive sysGood sysGood 0 1
    (by decide) (by decide) (by decide)
  have hD := C3_escalation_flag cfgDefault sysGood sysGood 0 1
    (by decide) (by decide) (by decide)
  exact ⟨hA.1, hA.2, hD.1, hD.2⟩

/-- C4: with a valid plan, the occurrence's trace is exactly: the start
observation, one `clogPair(proxyIp, tlogIp, clogDuration)` per non-survivor
tLog (none for the survivor), then the `clogDuration / 3` suspension, then
the escalation commands — so every link fault is issued before the
suspension and before any escalation call. -/
theorem C4_link_faults_order (self : RollbackWorkload) (system system2 : ServerDBInfo)
    (pIndex utIndex : Nat)
    (hp : pIndex < system.commitProxies.length)
    (hu : utIndex < system.tlogs.length)
    (hnc : ∀ t, t < system.tlogs.length → t ≠ utIndex →
      (system.tlogs.getD t default).ip ≠ (system.commitProxies.getD pIndex default).ip) :
    simulateFailure self system system2 pIndex utIndex =
      .traceEvent "AttemptingToTriggerRollback" "" ::
        ((system.tlogs.eraseIdx utIndex).map fun a =>
            Command.clogPair (system.commitProxies.getD pIndex default).ip a.ip
              self.clogDuration) ++
          Command.delayMark (self.clogDuration / 3) ::
            escalate self (system.commitProxies.getD pIndex default)
              (system.tlogs.getD utIndex default) ∧
    ((system.tlogs.eraseIdx utIndex).map fun a =>
        Command.clogPair (system.commitProxies.getD pIndex default).ip a.ip
          self.clogDuration).length = system.tlogs.length - 1 := by
  have hsample := sample_eq_plan system pIndex utIndex hp hu hnc
  constructor
  · simp [simulateFailure, hsample]
  · rw [List.length_map, List.length_eraseIdx, if_pos hu]

/-- Witness for C4 on the concrete three-tLog snapshot, survivor index 1. -/
theorem C4_link_faults_order_witness :
    simulateFailure cfgDefault sysGood sysGood 0 1 =
      .traceEvent "AttemptingToTriggerRollback" "" ::
        ([addrR1, addrR3].map fun a =>
            Command.clogPair addrP1.ip a.ip cfgDefault.clogDuration) ++
          Command.delayMark (cfgDefault.clogDuration / 3) ::
            escalate cfgDefault addrP1 addrR2 ∧
    ([addrR1, addrR3].map fun a =>
        Command.clogPair addrP1.ip a.ip cfgDefault.clogDuration).length = 2 := by
  have h := C4_link_faults_order cfgDefault sysGood sysGood 0 1
    (by decide) (by decide) (by decide)
  exact ⟨h.1, h.2⟩

/-- C5: in single-shot mode the worker suspends for
`r * max 0 (testDuration - 13 * clogDuration)` with `r` uniform in `[0,1)` —
a delay that is non-negative, below the margin whenever the margin is
positive, and exactly zero when `testDuration < 13 * clogDuration` — then
runs exactly one occurrence and finishes. -/
theorem C5_single_shot (self : RollbackWorkload) (r : Rat) (es : Nat → Rat)
    (t0 : Rat) (fuel : Nat) (hm : self.multiple = false) (h0 : 0 ≤ r) (h1 : r < 1) :
    rollbackFailureWorker self r es t0 fuel =
      [.waitDelay (singleShotDelay self r), .runOccurrence 0, .finish] ∧
    singleShotDelay self r = r * max 0 (self.testDuration - self.clogDuration * 13) ∧
    0 ≤ singleShotDelay self r ∧
    (0 < max 0 (self.testDuration - self.clogDuration * 13) →
      singleShotDelay self r < max 0 (self.testDuration - self.clogDuration * 13)) ∧
    (self.testDuration < self.clogDuration * 13 → singleShotDelay self r = 0) := by
  refine ⟨by simp [rollbackFailureWorker, hm], rfl, ?_, ?_, ?_⟩
  · exact mul_nonneg h0 (le_max_left 0 _)
  · intro hpos
    exact mul_lt_of_lt_one_left hpos h1
  · intro hlt
    unfold singleShotDelay
    rw [max_eq_left (by linarith), mul_zero]

/-- Witness for C5 with the default durations (`testDuration = 10 < 39 =
13 * clogDuration`, so the delay collapses to zero). -/
theorem C5_single_shot_witness :
    rollbackFailureWorker cfgSingle (1 / 2) (fun _ => 1) 0 5 =
      [.waitDelay (singleShotDelay cfgSingle (1 / 2)), .runOccurrence 0, .finish] ∧
    singleShotDelay cfgSingle (1 / 2) = 0 := by
  have h := C5_single_shot cfgSingle (1 / 2) (fun _ => 1) 0 5 rfl
    (by norm_num) (by norm_num)
  refine ⟨h.1, h.2.2.2.2 ?_⟩
  show (10 : Rat) < 3 * 13
  norm_num

/-- C6: in repeating mode the worker is the endless poisson loop: for every
truncation depth the trace is the strict wait/run alternation of occurrences
`0, 1, 2, …` with each wait anchored at the running last-event time advanced
by `meanDelay` times that occurrence's exponential sample, it contains no
`finish` event (no internal termination — only external cancellation ends
it), and each additional iteration runs exactly one more occurrence, always
after the previous one. -/
theorem C6_repeating (self : RollbackWorkload) (r : Rat) (es : Nat → Rat) (t0 : Rat)
    (hm : self.multiple = true) :
    (∀ fuel, rollbackFailureWorker self r es t0 fuel =
      (List.range fuel).flatMap fun k =>
        [SchedEvent.waitUntil (anchorTime self.meanDelay es t0 k),
          SchedEvent.runOccurrence k]) ∧
    (∀ fuel, SchedEvent.finish ∉ rollbackFailureWorker self r es t0 fuel) ∧
    (∀ fuel, ((rollbackFailureWorker self r es t0 fuel).filter
        SchedEvent.isRunOccurrence).length = fuel) := by
  have hw : ∀ fuel, rollbackFailureWorker self r es t0 fuel =
      workerLoop self.meanDelay es t0 fuel 0 := by
    intro fuel
    simp [rollbackFailureWorker, hm]
  refine ⟨?_, ?_, ?_⟩
  · intro fuel
    rw [hw fuel, workerLoop_eq_flatMap]
    simp [anchorTime, Nat.zero_add]
  · intro fuel
    rw [hw fuel, workerLoop_eq_flatMap]
    intro hmem
    rw [List.mem_flatMap] at hmem
    obtain ⟨k, _, hk⟩ := hmem
    simp at hk
  · intro fuel
    rw [hw fuel]
    exact workerLoop_run_count self.meanDelay es fuel t0 0

/-- Witness for C6 with the default (repeating) configuration, two
iterations of the loop. -/
theorem C6_repeating_witness :
    rollbackFailureWorker cfgDefault (1 / 2) (fun _ => 1) 0 2 =
      [.waitUntil (anchorTime cfgDefault.meanDelay (fun _ => 1) 0 0), .runOccurrence 0,
        .waitUntil (anchorTime cfgDefault.meanDelay (fun _ => 1) 0 1), .runOccurrence 1] ∧
    SchedEvent.finish ∉ rollbackFailureWorker cfgDefault (1 / 2) (fun _ => 1) 0 2 ∧
    ((rollbackFailureWorker cfgDefault (1 / 2) (fun _ => 1) 0 2).filter
      SchedEvent.isRunOccurrence).length = 2 := by
  have h := C6_repeating cfgDefault (1 / 2) (fun _ => 1) 0 rfl
  refine ⟨?_, h.2.1 2, h.2.2 2⟩
  rw [h.1 2]
  rfl

/-- C7: for every snapshot whose tLog list is empty or whose commit-proxy
list is empty, `simulateFailure` only emits the informational trace event
`UnableToTriggerRollback / No tlogs in System Map`, issues no
fault-injection command, and returns normally. -/
theorem C7_no_candidates (self : RollbackWorkload) (system system2 : ServerDBInfo)
    (pIndex utIndex : Nat) (h : system.tlogs = [] ∨ system.commitProxies = []) :
    simulateFailure self system system2 pIndex utIndex =
      [.traceEvent "UnableToTriggerRollback" "No tlogs in System Map"] ∧
    ∀ c ∈ simulateFailure self system system2 pIndex utIndex,
      c.isFaultInjection = false := by
  have hsample : sample system pIndex utIndex = .abort "No tlogs in System Map" := by
    unfold sample
    rcases h with h | h <;> simp [h]
  constructor
  · simp [simulateFailure, hsample]
  · intro c hc
    simp only [simulateFailure, hsample, List.mem_singleton] at hc
    simp [hc, Command.isFaultInjection]

/-- Witness for C7 on the concrete empty-tLog snapshot. -/
theorem C7_no_candidates_witness :
    simulateFailure cfgDefault sysNoTLogs sysNoTLogs 0 0 =
      [.traceEvent "UnableToTriggerRollback" "No tlogs in System Map"] ∧
    ∀ c ∈ simulateFailure cfgDefault sysNoTLogs sysNoTLogs 0 0,
      c.isFaultInjection = false :=
  C7_no_candidates cfgDefault sysNoTLogs sysNoTLogs 0 0 (Or.inl rfl)

/-- C8: the configuration options are read with exactly these defaults when
absent: `meanDelay = 20`, `clogDuration = 3`, `testDuration = 10`,
`multiple = true`, and the escalation-strategy flag (`enableFailures`, the
spec's `aggressiveFailures`) defaults to `false`. -/
theorem C8_option_defaults (clientId : Nat) :
    (RollbackWorkload.init clientId emptyOptions).meanDelay = 20 ∧
    (RollbackWorkload.init clientId emptyOptions).clogDuration = 3 ∧
    (RollbackWorkload.init clientId emptyOptions).testDuration = 10 ∧
    (RollbackWorkload.init clientId emptyOptions).multiple = true ∧
    (RollbackWorkload.init clientId emptyOptions).enableFailures = false :=
  ⟨rfl, rfl, rfl, rfl, rfl⟩

/-- C9: `enabled` holds exactly on `clientId = 0`, and `start()` launches the
timeout-wrapped scheduler exactly when running under the simulator with
`enabled`; in every other case it returns immediately with no action. -/
theorem C9_enabled_gating (clientId : Nat) (options : WorkloadOptions)
    (inSimulation : Bool) :
    ((RollbackWorkload.init clientId options).enabled = true ↔ clientId = 0) ∧
    ((RollbackWorkload.init clientId options).start inSimulation =
        .launchScheduler (RollbackWorkload.init clientId options).testDuration ↔
      (inSimulation = true ∧ clientId = 0)) ∧
    (¬(inSimulation = true ∧ clientId = 0) →
      (RollbackWorkload.init clientId options).start inSimulation = .noop) := by
  refine ⟨?_, ?_, ?_⟩
  · simp [RollbackWorkload.init]
  · cases inSimulation <;> by_cases hc : clientId = 0 <;>
      simp [RollbackWorkload.init, RollbackWorkload.start, hc]
  · intro hn
    cases inSimulation <;> by_cases hc : clientId = 0 <;>
      simp_all [RollbackWorkload.init, RollbackWorkload.start]

/-- Witness for C9: client 0 in simulation launches; client 1 does not. -/
theorem C9_enabled_gating_witness :
    ((RollbackWorkload.init 0 emptyOptions).enabled = true ↔ (0 : Nat) = 0) ∧
    ¬(true = true ∧ (1 : Nat) = 0) ∧
    (RollbackWorkload.init 1 emptyOptions).start true = .noop := by
  refine ⟨(C9_enabled_gating 0 emptyOptions true).1, by decide, ?_⟩
  exact (C9_enabled_gating 1 emptyOptions true).2.2 (by decide)

/-- C10: the mid-occurrence re-read of the cluster snapshot (after the
`clogDuration / 3` delay) never changes the escalation targets: the trace is
independent of the re-read snapshot, and the escalation commands are
`escalate` applied to the proxy and unclogged tLog chosen by `sample` on the
snapshot read before the suspension. -/
theorem C10_reread_no_effect (self : RollbackWorkload)
    (system system2A system2B : ServerDBInfo) (pIndex utIndex : Nat) :
    simulateFailure self system system2A pIndex utIndex =
      simulateFailure self system system2B pIndex utIndex ∧
    ∀ proxy uncloggedTLog others,
      sample system pIndex utIndex = .plan proxy uncloggedTLog others →
      simulateFailure self system system2A pIndex utIndex =
        .traceEvent "AttemptingToTriggerRollback" "" ::
          (others.map fun a => Command.clogPair proxy.ip a.ip self.clogDuration) ++
            Command.delayMark (self.clogDuration / 3) ::
              escalate self proxy uncloggedTLog := by
  constructor
  · rfl
  · intro proxy uncloggedTLog others hplan
    simp [simulateFailure, hplan]

/-- Witness for C10 on the concrete three-tLog snapshot versus the empty one. -/
theorem C10_reread_no_effect_witness :
    simulateFailure cfgDefault sysGood sysNoTLogs 0 1 =
      simulateFailure cfgDefault sysGood sysGood 0 1 ∧
    simulateFailure cfgDefault sysGood sysNoTLogs 0 1 =
      .traceEvent "AttemptingToTriggerRollback" "" ::
        ([addrR1, addrR3].map fun a => Command.clogPair addrP1.ip a.ip cfgDefault.clogDuration) ++
          Command.delayMark (cfgDefault.clogDuration / 3) ::
            escalate cfgDefault addrP1 addrR2 := by
  have h := C10_reread_no_effect cfgDefault sysGood sysNoTLogs sysGood 0 1
  exact ⟨h.1, h.2 addrP1 addrR2 [addrR1, addrR3] (by decide)⟩

end Rollback
